import Mathlib

/-!
Verification of the book-ingestion pipeline in `Python/download.py`
(SemanticLibrary).  The Python source is shallowly embedded: pure string
manipulation is translated to functions over `List Char`, network and
subprocess effects become explicit oracles passed as function arguments,
and the SQLite store becomes a list of rows.  Line numbers in doc
comments refer to `Python/download.py`.
-/

set_option maxRecDepth 4000

/-! ## Python string primitives -/

/-- ASCII whitespace as recognised by Python `str.strip()` / `int()`
(space, tab, newline, carriage return, vertical tab, form feed; the
unicode-only whitespace code points are not modelled since every string
reaching `strip` here is HTTP body text or a URL fragment). -/
def pyIsSpace (c : Char) : Bool :=
  c == ' ' || c == '\t' || c == '\n' || c == '\r' || c == '\x0b' || c == '\x0c'

/-- Truthiness of `s.strip()` in Python: the stripped string is non-empty
iff some character is not whitespace. -/
def stripTruthy (s : String) : Bool :=
  s.toList.any (fun c => !pyIsSpace c)

/-- Does the list start with the given pattern?  (Python `startswith`,
used to model substring search.) -/
def startsWithL : List Char → List Char → Bool
  | _, [] => true
  | [], _ :: _ => false
  | a :: as, b :: bs => a == b && startsWithL as bs

/-- Does `needle` occur as a contiguous sublist?  Models Python `in`
on strings. -/
def containsSub (needle : List Char) : List Char → Bool
  | [] => startsWithL [] needle
  | a :: as => startsWithL (a :: as) needle || containsSub needle as

/-- Python `sub in s` for strings. -/
def strContainsSub (s sub : String) : Bool :=
  containsSub sub.toList s.toList

/-- Characters strictly before the first occurrence of `sep` (the whole
list when `sep` is absent): Python `s.split(sep)[0]`. -/
def takeUntilSub (sep : List Char) : List Char → List Char
  | [] => []
  | a :: as => if startsWithL (a :: as) sep then [] else a :: takeUntilSub sep as

/-- Characters strictly after the first occurrence of `sep`, `none` when
`sep` is absent. -/
def dropUntilSub (sep : List Char) : List Char → Option (List Char)
  | [] => none
  | a :: as =>
    if startsWithL (a :: as) sep then some (List.drop sep.length (a :: as))
    else dropUntilSub sep as

/-- Python `s.split(sep)[1]`: the text between the first and second
occurrence of `sep`, defined only when `sep` occurs at all. -/
def pySplit1 (sep : List Char) (s : List Char) : Option (List Char) :=
  (dropUntilSub sep s).map (takeUntilSub sep)

/-- Digit run of a Python integer literal after the leading digit:
digits, with single underscores allowed between digits
(`int("1_2") = 12`, `int("1__2")` and `int("1_")` raise). -/
def parseDigitsCore : Nat → List Char → Option Nat
  | acc, [] => some acc
  | acc, c :: cs =>
    if c.isDigit then parseDigitsCore (acc * 10 + (c.toNat - 48)) cs
    else if c == '_' then
      match cs with
      | [] => none
      | d :: ds =>
        if d.isDigit then parseDigitsCore (acc * 10 + (d.toNat - 48)) ds else none
    else none

/-- Non-empty digit run (first character must be a digit). -/
def parseDigits : List Char → Option Nat
  | [] => none
  | c :: cs => if c.isDigit then parseDigitsCore (c.toNat - 48) cs else none

/-- Strip leading and trailing Python whitespace. -/
def pyStripChars (l : List Char) : List Char :=
  ((l.dropWhile pyIsSpace).reverse.dropWhile pyIsSpace).reverse

/-- Python `int(s)` on a string: strips whitespace, accepts an optional
sign then ASCII digits with single interior underscores; `none` models
the `ValueError` path.  (Unicode digits are not modelled; the URLs fed
to it are ASCII.) -/
def pyInt? (s : List Char) : Option Int :=
  match pyStripChars s with
  | '+' :: rest => (parseDigits rest).map (fun n => (n : Int))
  | '-' :: rest => (parseDigits rest).map (fun n => -(n : Int))
  | t => (parseDigits t).map (fun n => (n : Int))

/-! ## Input records (JSON values) -/

/-- A JSON value in an input record, restricted to the shapes the
pipeline inspects: `null` and strings.  Truthiness of other JSON shapes
is not exercised by the claims. -/
inductive PyVal where
  | null : PyVal
  | str (s : String) : PyVal
deriving DecidableEq, Repr

/-- Python truthiness of a record value. -/
def pyTruthy : PyVal → Bool
  | .null => false
  | .str s => !s.isEmpty

/-- Python `str.lower()` on ASCII keys (the Unicode-only case foldings
are not modelled; input record keys are ASCII). -/
def lowerStr (s : String) : String :=
  String.mk (s.toList.map Char.toLower)

/-- Lines 308: `{k.lower(): v for k, v in item.items()}` — lower-case all
keys (later duplicates overwrite earlier ones, captured by `dictGet`). -/
def lowerDict (item : List (String × PyVal)) : List (String × PyVal) :=
  item.map (fun kv => (lowerStr kv.1, kv.2))

/-- `dict.get(key)`: the value of the last binding of `key` (dict
comprehension keeps the last write), `none` when absent. -/
def dictGet (d : List (String × PyVal)) (key : String) : Option PyVal :=
  match d.reverse.find? (fun kv => kv.1 == key) with
  | some kv => some kv.2
  | none => none

/-- Lines 312-313: `lower.get(k) or default` — the looked-up value when
it is a truthy string, the default otherwise (missing key, null, empty
string). -/
def pyOrDefault (v : Option PyVal) (d : String) : String :=
  match v with
  | some (.str s) => if s.isEmpty then d else s
  | _ => d

/-- A truthy string value, `none` when missing or falsy (guard at line
315: `if not url or not book_title: continue`). -/
def strOfTruthy : Option PyVal → Option String
  | some (.str s) => if s.isEmpty then none else some s
  | _ => none

/-! ## Source kinds and identifier resolution -/

/-- The three registered sources (classes `GutenbergDownloader`,
`InternetArchiveDownloader`, `GoogleBooksDownloader`). -/
inductive SourceKind where
  | gutenberg
  | internetArchive
  | googleBooks
deriving DecidableEq, Repr

/-- A value bound into a SQLite identifier column: `gutenberg_id` is an
integer, the other two are text. -/
inductive DbVal where
  | int (n : Int) : DbVal
  | text (s : String) : DbVal
deriving DecidableEq, Repr

/-- Lines 106-111: `match_downloader` scans `DOWNLOADERS` in registration
order and returns the first whose `domain` is a substring of the URL. -/
def match_downloader (url : String) : Option SourceKind :=
  if strContainsSub url "gutenberg.org" then some .gutenberg
  else if strContainsSub url "archive.org" then some .internetArchive
  else if strContainsSub url "books.google." then some .googleBooks
  else none

def ebooksSeg : List Char := "/ebooks/".toList

def detailsSeg : List Char := "/details/".toList

/-- Lines 122-129: `GutenbergDownloader.get_id`.  Requires `/ebooks/` in
the URL, then `int(url.split("/ebooks/")[1].split("?")[0])`; a
`ValueError` from `int` yields `None`. -/
def gutenberg_get_id (url : String) : Option Int :=
  match pySplit1 ebooksSeg url.toList with
  | none => none
  | some seg => pyInt? (takeUntilSub ['?'] seg)

/-- Lines 154-158: `InternetArchiveDownloader.get_id`.  Requires
`/details/` in the URL; identifier is
`url.split("/details/")[1].split("/")[0]` (possibly the empty string). -/
def ia_get_id (url : String) : Option String :=
  match pySplit1 detailsSeg url.toList with
  | none => none
  | some seg => some (String.mk (takeUntilSub ['/'] seg))

/-- Word character for the regex `\b` boundary (`[A-Za-z0-9_]`; the URLs
matched here are ASCII). -/
def isWordChar (c : Char) : Bool :=
  c.isAlpha || c.isDigit || c == '_'

def editionLit : List Char := "/books/edition/".toList

/-- One attempt of pattern `/books/edition/[^/]+/([^?\/]+)` anchored at
the start of `l`; returns the captured group. -/
def gbTryEdition (l : List Char) : Option (List Char) :=
  if startsWithL l editionLit then
    let r := l.drop editionLit.length
    let seg := r.takeWhile (fun c => c != '/')
    if seg.isEmpty then none
    else
      match r.drop seg.length with
      | '/' :: r2 =>
        let cap := r2.takeWhile (fun c => c != '?' && c != '/')
        if cap.isEmpty then none else some cap
      | _ => none
  else none

/-- `re.search` of the edition pattern: leftmost start position wins. -/
def gbSearchEdition : List Char → Option (List Char)
  | [] => none
  | a :: as =>
    match gbTryEdition (a :: as) with
    | some cap => some cap
    | none => gbSearchEdition as

/-- One attempt of pattern `\bid=([^&]+)` at the start of `l` (the `\b`
context is checked by the caller). -/
def gbTryIdEq (l : List Char) : Option (List Char) :=
  if startsWithL l ['i', 'd', '='] then
    let cap := (l.drop 3).takeWhile (fun c => c != '&')
    if cap.isEmpty then none else some cap
  else none

/-- `\b` before a word character: start of string or a non-word
character before it. -/
def prevBoundary : Option Char → Bool
  | none => true
  | some c => !isWordChar c

/-- `re.search` of `\bid=([^&]+)`: leftmost position where the word
boundary holds and the pattern matches. -/
def gbSearchIdEq (prev : Option Char) : List Char → Option (List Char)
  | [] => none
  | a :: as =>
    match (if prevBoundary prev then gbTryIdEq (a :: as) else none) with
    | some cap => some cap
    | none => gbSearchIdEq (some a) as

def booksIdLit : List Char := "/books?id=".toList

/-- One attempt of pattern `/books\?id=([^&]+)` at the start of `l`. -/
def gbTryBooksId (l : List Char) : Option (List Char) :=
  if startsWithL l booksIdLit then
    let cap := (l.drop booksIdLit.length).takeWhile (fun c => c != '&')
    if cap.isEmpty then none else some cap
  else none

/-- `re.search` of the `/books\?id=` pattern. -/
def gbSearchBooksId : List Char → Option (List Char)
  | [] => none
  | a :: as =>
    match gbTryBooksId (a :: as) with
    | some cap => some cap
    | none => gbSearchBooksId as

/-- Lines 182-193: `GoogleBooksDownloader.get_id` tries the three regex
patterns in order; the first match wins. -/
def googleBooks_get_id (url : String) : Option String :=
  match gbSearchEdition url.toList with
  | some cap => some (String.mk cap)
  | none =>
    match gbSearchIdEq none url.toList with
    | some cap => some (String.mk cap)
    | none => (gbSearchBooksId url.toList).map String.mk

/-- Lines 318-323: match a downloader by domain, then extract that
source's identifier; `none` models both `continue` paths.  The
identifier is tagged with the column type it is bound at (integer for
Gutenberg, text otherwise). -/
def resolveIdentity (url : String) : Option (SourceKind × DbVal) :=
  match match_downloader url with
  | none => none
  | some .gutenberg => (gutenberg_get_id url).map (fun n => (.gutenberg, .int n))
  | some .internetArchive => (ia_get_id url).map (fun s => (.internetArchive, .text s))
  | some .googleBooks => (googleBooks_get_id url).map (fun s => (.googleBooks, .text s))

/-! ## Fetch strategy (Gutenberg / Internet Archive plain text) -/

/-- Outcome of `SESSION.get` on one candidate URL: a response with a
status code and body text, or a raised network exception. -/
inductive FetchOutcome where
  | err : FetchOutcome
  | resp (status : Nat) (body : String) : FetchOutcome
deriving DecidableEq, Repr

/-- `r.status_code == 200` (line 91); an exception has no status. -/
def is200 : FetchOutcome → Bool
  | .resp 200 _ => true
  | .err => false
  | .resp _ _ => false

/-- `r.text` of a response (only inspected on the 200 path). -/
def respBody : FetchOutcome → String
  | .resp _ b => b
  | .err => ""

/-- Lines 87-95: `Downloaders._download_text` — request each candidate
URL in order; return the first response whose status is 200 together
with its URL; exceptions and non-200 responses fall through to the next
candidate; `(None, None)` when the list is exhausted. -/
def download_text (world : String → FetchOutcome) : List String → Option (String × String)
  | [] => none
  | u :: rest =>
    if is200 (world u) then some (respBody (world u), u)
    else download_text world rest

/-- Lines 140-143 / 168-171: the shared tail of
`GutenbergDownloader.download` and `InternetArchiveDownloader.download`:
`if r and r.text.strip(): return r.text, url` else `(None, None)`. -/
def text_download (world : String → FetchOutcome) (urls : List String) :
    Option String × Option String :=
  match download_text world urls with
  | some (body, u) => if stripTruthy body then (some body, some u) else (none, none)
  | none => (none, none)

/-- Lines 135-139: the three candidate URLs for a Gutenberg id. -/
def gutenberg_urls (id : Int) : List String :=
  [s!"https://www.gutenberg.org/files/{id}/{id}-0.txt",
   s!"https://www.gutenberg.org/files/{id}/{id}.txt",
   s!"https://www.gutenberg.org/ebooks/{id}.txt.utf-8"]

/-- Lines 131-143: `GutenbergDownloader.download`. -/
def gutenberg_download (world : String → FetchOutcome) (id : Option Int) :
    Option String × Option String :=
  match id with
  | none => (none, none)
  | some i => text_download world (gutenberg_urls i)

/-- Lines 164-167: the two candidate URLs for an Internet Archive id. -/
def ia_urls (id : String) : List String :=
  [s!"https://archive.org/download/{id}/{id}_djvu.txt",
   s!"https://archive.org/download/{id}/{id}.txt"]

/-- Lines 160-171: `InternetArchiveDownloader.download`. -/
def ia_download (world : String → FetchOutcome) (id : Option String) :
    Option String × Option String :=
  match id with
  | none => (none, none)
  | some i => text_download world (ia_urls i)

/-- The fetch result as the spec sentence describes it: the first
candidate whose response has status 200 AND a non-empty trimmed body,
skipping all others.  Written from the spec wording, to be compared
with `text_download` (the code). -/
def specFirstSuccess (world : String → FetchOutcome) (urls : List String) :
    Option (String × String) :=
  (urls.find? (fun u => is200 (world u) && stripTruthy (respBody (world u)))).map
    (fun u => (respBody (world u), u))

/-! ## PDF text extraction pipeline -/

/-- PDF payload bytes. -/
abbrev Pdf := List Nat

/-- Host OCR capability and the external OCR conversion itself:
`tesseract` — `shutil.which("tesseract")` finds the OCR engine;
`ghostscript` — `shutil.which("gswin64c")` or `shutil.which("gs")`
finds the rasterizer; `ocrRun` — the `ocrmypdf` subprocess, producing a
new PDF or failing (`none` models a raised `CalledProcessError`). -/
structure OcrEnv where
  tesseract : Bool
  ghostscript : Bool
  ocrRun : Pdf → Option Pdf

/-- Lines 212-220: `extract_text_from_pdf` — structural (pdfminer)
extraction; `w` is the pdfminer oracle (`none` models a raised
exception).  Returns the text only when `text and text.strip()` is
truthy. -/
def extract_text_from_pdf (w : Pdf → Option String) (pdf : Pdf) : Option String :=
  match w pdf with
  | none => none
  | some t => if stripTruthy t then some t else none

/-- Lines 222-249: `extract_ocr_from_pdf`, instrumented with the number
of OCR (ocrmypdf subprocess) invocations.  Capability probes come
first; a subprocess failure or pdfminer failure on its output is caught
and yields `none`. -/
def extract_ocr_from_pdf (env : OcrEnv) (w : Pdf → Option String) (pdf : Pdf) :
    Option String × Nat :=
  if !env.tesseract then (none, 0)
  else if !env.ghostscript then (none, 0)
  else
    match env.ocrRun pdf with
    | none => (none, 1)
    | some out =>
      match w out with
      | none => (none, 1)
      | some t => if stripTruthy t then (some t, 1) else (none, 1)

/-- Lines 251-257: `convert_pdf_to_text` — structural extraction first,
OCR fallback only when it returns `None`.  Second component counts OCR
invocations. -/
def convert_pdf_to_text (env : OcrEnv) (w : Pdf → Option String) (pdf : Pdf) :
    Option String × Nat :=
  match extract_text_from_pdf w pdf with
  | some t => (some t, 0)
  | none => extract_ocr_from_pdf env w pdf

/-! ## Google Books PDF fetch -/

/-- The fields of `meta["accessInfo"]["pdf"]` the code inspects:
`isAvailable` is the truthiness of `book_meta.get("isAvailable")`
(missing key, `false`, `null` all collapse to `false`); `downloadLink`
is `book_meta.get("downloadLink")` (`none` = missing). -/
structure GBMeta where
  isAvailable : Bool
  downloadLink : Option String
deriving DecidableEq, Repr

/-- An HTTP response carrying PDF bytes. -/
structure PdfResp where
  status : Nat
  content : Pdf
deriving DecidableEq, Repr

/-- Outcome of the PDF download `SESSION.get` (line 271): a response or
a raised `requests.RequestException`. -/
inductive PdfFetch where
  | err : PdfFetch
  | ok (r : PdfResp) : PdfFetch
deriving DecidableEq, Repr

/-- Lines 259-282: `extract_pdf` — gate on `isAvailable`, on a present
non-empty `downloadLink`, download the PDF, reject non-200 or bodies
under 50000 bytes, and only then hand the payload to
`convert_pdf_to_text`.  The second component counts how many payloads
were passed to the extraction pipeline. -/
def extract_pdf (env : OcrEnv) (w : Pdf → Option String) (pdfGet : String → PdfFetch)
    (meta : GBMeta) : (Option String × Option String) × Nat :=
  if !meta.isAvailable then ((none, none), 0)
  else
    match meta.downloadLink with
    | none => ((none, none), 0)
    | some link =>
      if link.isEmpty then ((none, none), 0)
      else
        match pdfGet link with
        | .err => ((none, none), 0)
        | .ok r =>
          if r.status ≠ 200 ∨ r.content.length < 50000 then ((none, none), 0)
          else (((convert_pdf_to_text env w r.content).1, some link), 1)

/-! ## Record store -/

/-- One row of the `books` table (lines 339-350); the surrogate
`id INTEGER PRIMARY KEY` is the list position and is not materialised.
Exactly the columns touched by the insert at lines 290-299. -/
structure Row where
  gutenberg_id : Option DbVal
  ia_title_id : Option DbVal
  gb_title_id : Option DbVal
  author : String
  title : String
  category : String
  source_url : Option String
  content : String
deriving DecidableEq, Repr

/-- The identifier column named by `downloader.name` for each source. -/
def Row.col (r : Row) : SourceKind → Option DbVal
  | .gutenberg => r.gutenberg_id
  | .internetArchive => r.ia_title_id
  | .googleBooks => r.gb_title_id

/-- One execution of the upsert statement at lines 290-299, with its
bound parameters. -/
structure UpsertOp where
  kind : SourceKind
  ident : DbVal
  author : String
  title : String
  category : String
  source_url : Option String
  content : String
deriving DecidableEq, Repr

/-- The `DO UPDATE SET` clause: overwrite the five descriptive fields,
leave all identifier columns as they are. -/
def overwriteDesc (r : Row) (op : UpsertOp) : Row :=
  { r with title := op.title, category := op.category,
           source_url := op.source_url, content := op.content,
           author := op.author }

/-- The row inserted when there is no conflict: only the column of
`op.kind` is populated, the other identifier columns stay NULL. -/
def newRow (op : UpsertOp) : Row :=
  { gutenberg_id := if op.kind = .gutenberg then some op.ident else none,
    ia_title_id := if op.kind = .internetArchive then some op.ident else none,
    gb_title_id := if op.kind = .googleBooks then some op.ident else none,
    author := op.author, title := op.title, category := op.category,
    source_url := op.source_url, content := op.content }

/-- `INSERT ... ON CONFLICT({name}) DO UPDATE SET ...` against the
partial unique index on that column: when a row already carries the
identifier, its descriptive fields are overwritten; otherwise a fresh
row is appended. -/
def applyUpsert (s : List Row) (op : UpsertOp) : List Row :=
  if s.any (fun r => r.col op.kind == some op.ident) then
    s.map (fun r => if r.col op.kind == some op.ident then overwriteDesc r op else r)
  else s ++ [newRow op]

/-- Line 325: `SELECT 1 FROM books WHERE {name} = ?` — does some row
carry the identifier in that source's column?  (A NULL column never
equals a value in SQL, matching `none ≠ some v`.) -/
def dbExists (s : List Row) (k : SourceKind) (v : DbVal) : Bool :=
  s.any (fun r => r.col k == some v)

/-- Python truthiness of the fetched text at line 289 (`if text:`). -/
def storable : Option String → Bool
  | none => false
  | some t => !t.isEmpty

/-- Lines 285-303: `store_in_db` after the download has produced
`(text, url)`: upsert only when `text` is truthy, otherwise leave the
store untouched. -/
def store_in_db (s : List Row) (kind : SourceKind) (ident : DbVal)
    (title author category : String) (text : Option String) (url : Option String) :
    List Row :=
  match text with
  | none => s
  | some t =>
    if t.isEmpty then s
    else applyUpsert s
      { kind := kind, ident := ident, author := author, title := title,
        category := category, source_url := url, content := t }

/-! ## Batch coordinator -/

/-- Line 310: `lower.get("url")` filtered by the line-315 guard. -/
def itemUrl (item : List (String × PyVal)) : Option String :=
  strOfTruthy (dictGet (lowerDict item) "url")

/-- Line 311: `lower.get("title")` filtered by the line-315 guard. -/
def itemTitle (item : List (String × PyVal)) : Option String :=
  strOfTruthy (dictGet (lowerDict item) "title")

/-- Line 312: `lower.get("author") or "Unknown"`. -/
def itemAuthor (item : List (String × PyVal)) : String :=
  pyOrDefault (dictGet (lowerDict item) "author") "Unknown"

/-- Line 313: `lower.get("category") or "Uncategorized"`. -/
def itemCategory (item : List (String × PyVal)) : String :=
  pyOrDefault (dictGet (lowerDict item) "category") "Uncategorized"

/-- The identity the coordinator resolves for an input record, `none`
when the record is dropped (missing/falsy `url` or `title`, no matching
downloader, or `get_id` returned `None`). -/
def resolveItem (item : List (String × PyVal)) : Option (SourceKind × DbVal) :=
  match itemUrl item, itemTitle item with
  | some url, some _ => resolveIdentity url
  | _, _ => none

/-- Lines 305-333, one loop iteration of `process_input`.  The network
download performed inside `store_in_db` (line 288) is the oracle
`fetch`, a function of the resolved identity (the downloader's `id`
field is all the download uses).  Returns the new store, the number of
fetch (download) calls made, and the number of `time.sleep(1)` pauses
executed for this item. -/
def processItem (fetch : SourceKind → DbVal → Option String × Option String)
    (store : List Row) (item : List (String × PyVal)) : List Row × Nat × Nat :=
  match itemUrl item, itemTitle item with
  | some url, some title =>
    match resolveIdentity url with
    | none => (store, 0, 0)
    | some (kind, ident) =>
      if dbExists store kind ident then (store, 0, 0)
      else
        let r := fetch kind ident
        (store_in_db store kind ident title (itemAuthor item) (itemCategory item)
          r.1 r.2, 1, 1)
  | _, _ => (store, 0, 0)

/-- Lines 305-333: `process_input` over the whole batch, threading the
store. -/
def process_input (fetch : SourceKind → DbVal → Option String × Option String)
    (data : List (List (String × PyVal))) (store : List Row) : List Row :=
  data.foldl (fun s item => (processItem fetch s item).1) store

/-! ## Derived predicates used to state the claims -/

/-- The Gutenberg identifier-extraction pattern, as §4.1 of the spec
describes it: a `/ebooks/` path segment followed by content that parses
as a Python integer (up to an optional query string). -/
def gutenbergPatternOk (url : String) : Bool :=
  match pySplit1 ebooksSeg url.toList with
  | none => false
  | some seg => (pyInt? (takeUntilSub ['?'] seg)).isSome

/-- The Internet Archive identifier-extraction pattern: a `/details/`
path segment. -/
def iaPatternOk (url : String) : Bool :=
  strContainsSub url "/details/"

/-- The Google Books identifier-extraction pattern: one of the three
registered regexes matches somewhere in the URL. -/
def googlePatternOk (url : String) : Bool :=
  (gbSearchEdition url.toList).isSome || (gbSearchIdEq none url.toList).isSome ||
    (gbSearchBooksId url.toList).isSome

/-- Row `r` does not clash on column `k` with any row of `rs`. -/
def rowClashFreeAgainst (k : SourceKind) (r : Row) (rs : List Row) : Bool :=
  match r.col k with
  | none => true
  | some v => rs.all (fun r2 => !(r2.col k == some v))

/-- No two rows of the list share a non-null value in column `k`
(the partial unique index on that column). -/
def colClashFree (k : SourceKind) : List Row → Bool
  | [] => true
  | r :: rs => rowClashFreeAgainst k r rs && colClashFree k rs

/-- The store invariant of §3: each of the three identifier columns is
duplicate-free among its non-null values. -/
def noDupIds (s : List Row) : Bool :=
  colClashFree .gutenberg s && colClashFree .internetArchive s &&
    colClashFree .googleBooks s

/-! ## Concrete inputs used by counterexamples and witnesses -/

/-- Network world for the C1 counterexample: the first Gutenberg
candidate URL for id 5 answers 200 with a whitespace-only body, the
second answers 200 with a real body. -/
def cexC1World : String → FetchOutcome := fun u =>
  if u = "https://www.gutenberg.org/files/5/5-0.txt" then .resp 200 "  "
  else if u = "https://www.gutenberg.org/files/5/5.txt" then .resp 200 "BOOK"
  else .err

/-- pdfminer oracle that reads text only out of the OCR output `[1]`. -/
def ocrOnlyW : Pdf → Option String := fun p =>
  if p = [1] then some "ocr text" else none

/-- pdfminer oracle for a PDF with an embedded text layer. -/
def embeddedW : Pdf → Option String := fun _ => some "embedded text"

/-- Full OCR capability; the ocrmypdf subprocess returns the PDF `[1]`. -/
def fullOcrEnv : OcrEnv :=
  { tesseract := true, ghostscript := true, ocrRun := fun _ => some [1] }

/-- Host without tesseract. -/
def noTessEnv : OcrEnv :=
  { tesseract := false, ghostscript := true, ocrRun := fun _ => some [1] }

/-- A store holding exactly Gutenberg book 1342. -/
def exRow : Row :=
  { gutenberg_id := some (.int 1342), ia_title_id := none, gb_title_id := none,
    author := "Jane Austen", title := "Pride and Prejudice",
    category := "Fiction", source_url := some "u", content := "text" }

/-- The §8 scenario request for Gutenberg book 1342. -/
def exItem : List (String × PyVal) :=
  [("url", .str "https://www.gutenberg.org/ebooks/1342"),
   ("title", .str "Pride and Prejudice")]

/-- A request whose `author` is present but empty and whose `category`
is present but null (upper-case keys exercise the lowering). -/
def falsyItem : List (String × PyVal) :=
  [("url", .str "https://www.gutenberg.org/ebooks/1342"),
   ("Title", .str "Pride and Prejudice"),
   ("Author", .str ""), ("CATEGORY", .null)]

/-- A fetch oracle that always fails (returns no text). -/
def failFetch : SourceKind → DbVal → Option String × Option String :=
  fun _ _ => (none, none)

/-- A fetch oracle that succeeds for every identity. -/
def okFetch : SourceKind → DbVal → Option String × Option String :=
  fun _ _ => (some "BODY", some "http://x")

/-- Google Books metadata with an available PDF and a download link. -/
def exMeta : GBMeta := { isAvailable := true, downloadLink := some "http://pdf" }

/-- Google Books metadata with `isAvailable` falsy. -/
def unavailableMeta : GBMeta := { isAvailable := false, downloadLink := some "http://pdf" }

/-- PDF fetch answering a tiny (CAPTCHA-sized) 200 response. -/
def tinyPdfGet : String → PdfFetch := fun _ => .ok { status := 200, content := [0, 0] }

/-- An upsert colliding with `exRow` on `gutenberg_id`. -/
def exOp : UpsertOp :=
  { kind := .gutenberg, ident := .int 1342, author := "J. Austen",
    title := "Pride & Prejudice", category := "Novel",
    source_url := some "u2", content := "text2" }

/-! ## Helper lemmas -/

theorem dropUntilSub_isSome_eq_containsSub (sep : List Char) (hsep : sep ≠ []) :
    ∀ l : List Char, (dropUntilSub sep l).isSome = containsSub sep l := by
  intro l
  induction l with
  | nil =>
    cases sep with
    | nil => exact absurd rfl hsep
    | cons b bs => rfl
  | cons a as ih =>
    by_cases h : startsWithL (a :: as) sep = true
    · simp [dropUntilSub, containsSub, h]
    · simp only [Bool.not_eq_true] at h
      simp [dropUntilSub, containsSub, h, ih]

theorem download_text_eq_find (world : String → FetchOutcome) (urls : List String) :
    download_text world urls =
      (urls.find? (fun u => is200 (world u))).map (fun u => (respBody (world u), u)) := by
  induction urls with
  | nil => rfl
  | cons u rest ih =>
    by_cases h : is200 (world u) = true
    · simp [download_text, List.find?_cons_of_pos, h]
    · simp only [Bool.not_eq_true] at h
      simp [download_text, List.find?_cons_of_neg, h, ih]

theorem col_overwriteDesc (r : Row) (op : UpsertOp) (k : SourceKind) :
    (overwriteDesc r op).col k = r.col k := by
  cases k <;> rfl

theorem newRow_col_self (op : UpsertOp) : (newRow op).col op.kind = some op.ident := by
  cases hk : op.kind <;> simp [newRow, Row.col, hk]

theorem newRow_col_other (op : UpsertOp) (k : SourceKind) (h : k ≠ op.kind) :
    (newRow op).col k = none := by
  cases hk : op.kind <;> cases k <;> simp_all [newRow, Row.col]

theorem col_upsertMap (op : UpsertOp) (r : Row) (k : SourceKind) :
    ((if r.col op.kind == some op.ident then overwriteDesc r op else r).col k) = r.col k := by
  by_cases h : (r.col op.kind == some op.ident) = true
  · simp [h, col_overwriteDesc]
  · simp only [Bool.not_eq_true] at h
    simp [h]

theorem any_map_upsert (s : List Row) (op : UpsertOp) (k : SourceKind) (v : DbVal) :
    (s.map (fun r => if r.col op.kind == some op.ident then overwriteDesc r op else r)).any
      (fun r => r.col k == some v) = s.any (fun r => r.col k == some v) := by
  induction s with
  | nil => rfl
  | cons r rs ih => simp only [List.map_cons, List.any_cons, ih, col_upsertMap]

theorem dbExists_applyUpsert_self (s : List Row) (op : UpsertOp) :
    dbExists (applyUpsert s op) op.kind op.ident = true := by
  unfold applyUpsert dbExists
  by_cases h : s.any (fun r => r.col op.kind == some op.ident) = true
  · rw [if_pos h, any_map_upsert]
    exact h
  · simp only [Bool.not_eq_true] at h
    simp [h, List.any_append, newRow_col_self]

theorem dbExists_mono_applyUpsert (s : List Row) (op : UpsertOp) (k : SourceKind)
    (v : DbVal) (h : dbExists s k v = true) :
    dbExists (applyUpsert s op) k v = true := by
  unfold dbExists at h ⊢
  unfold applyUpsert
  by_cases hc : s.any (fun r => r.col op.kind == some op.ident) = true
  · rw [if_pos hc, any_map_upsert]
    exact h
  · simp only [Bool.not_eq_true] at hc
    simp [hc, List.any_append, h]

theorem store_in_db_not_storable (s : List Row) (k : SourceKind) (v : DbVal)
    (title author category : String) (text : Option String) (url : Option String)
    (h : storable text = false) :
    store_in_db s k v title author category text url = s := by
  cases text with
  | none => rfl
  | some t =>
    simp only [storable] at h
    have ht : t.isEmpty = true := by
      cases he : t.isEmpty
      · rw [he] at h
        simp at h
      · rfl
    simp [store_in_db, ht]

theorem dbExists_store_in_db_self (s : List Row) (k : SourceKind) (v : DbVal)
    (title author category : String) (text : Option String) (url : Option String)
    (h : storable text = true) :
    dbExists (store_in_db s k v title author category text url) k v = true := by
  cases text with
  | none => simp [storable] at h
  | some t =>
    simp only [storable, Bool.not_eq_true'] at h
    simp only [store_in_db, h, Bool.false_eq_true, if_false]
    exact dbExists_applyUpsert_self s
      { kind := k, ident := v, author := author, title := title,
        category := category, source_url := url, content := t }

theorem dbExists_mono_store_in_db (s : List Row) (k' : SourceKind) (v' : DbVal)
    (title author category : String) (text : Option String) (url : Option String)
    (k : SourceKind) (v : DbVal) (h : dbExists s k v = true) :
    dbExists (store_in_db s k' v' title author category text url) k v = true := by
  cases text with
  | none => exact h
  | some t =>
    by_cases he : t.isEmpty = true
    · simpa [store_in_db, he] using h
    · simp only [Bool.not_eq_true] at he
      simp only [store_in_db, he, Bool.false_eq_true, if_false]
      exact dbExists_mono_applyUpsert s _ k v h

theorem all_map_upsert (op : UpsertOp) (k : SourceKind) (v : DbVal) :
    ∀ rs : List Row,
      (rs.map (fun r2 => if r2.col op.kind == some op.ident then overwriteDesc r2 op else r2)).all
        (fun r2 => !(r2.col k == some v)) = rs.all (fun r2 => !(r2.col k == some v)) := by
  intro rs
  induction rs with
  | nil => rfl
  | cons r2 rs2 ih => simp only [List.map_cons, List.all_cons, ih, col_upsertMap]

theorem rowClashFreeAgainst_nil (k : SourceKind) (r : Row) :
    rowClashFreeAgainst k r [] = true := by
  unfold rowClashFreeAgainst
  cases r.col k with
  | none => rfl
  | some v => rfl

theorem rowClashFreeAgainst_map (k : SourceKind) (op : UpsertOp) (r : Row) (rs : List Row) :
    rowClashFreeAgainst k
      (if r.col op.kind == some op.ident then overwriteDesc r op else r)
      (rs.map (fun r2 => if r2.col op.kind == some op.ident then overwriteDesc r2 op else r2)) =
    rowClashFreeAgainst k r rs := by
  unfold rowClashFreeAgainst
  rw [col_upsertMap]
  cases r.col k with
  | none => rfl
  | some v => exact all_map_upsert op k v rs

theorem colClashFree_map_upsert (k : SourceKind) (op : UpsertOp) :
    ∀ s : List Row,
      colClashFree k
        (s.map (fun r => if r.col op.kind == some op.ident then overwriteDesc r op else r)) =
      colClashFree k s := by
  intro s
  induction s with
  | nil => rfl
  | cons r rs ih =>
    simp only [List.map_cons, colClashFree, ih, rowClashFreeAgainst_map]

theorem rowClashFreeAgainst_append_one (k : SourceKind) (r n : Row) (rs : List Row)
    (h : rowClashFreeAgainst k r rs = true)
    (hn : ∀ v, r.col k = some v → (!(n.col k == some v)) = true) :
    rowClashFreeAgainst k r (rs ++ [n]) = true := by
  unfold rowClashFreeAgainst at h ⊢
  cases hc : r.col k with
  | none => rfl
  | some v =>
    rw [hc] at h
    have h2 : (rs.all fun r2 => !(r2.col k == some v)) = true := h
    show ((rs ++ [n]).all fun r2 => !(r2.col k == some v)) = true
    rw [List.all_append, h2, List.all_cons, List.all_nil]
    simp [hn v hc]

theorem colClashFree_append_one (k : SourceKind) (n : Row) :
    ∀ s : List Row, colClashFree k s = true →
      (n.col k = none ∨
        ∃ w, n.col k = some w ∧ s.any (fun r => r.col k == some w) = false) →
      colClashFree k (s ++ [n]) = true := by
  intro s
  induction s with
  | nil =>
    intro _ _
    simp only [List.nil_append, colClashFree, rowClashFreeAgainst_nil, Bool.and_self]
  | cons r rs ih =>
    intro hs hn
    simp only [colClashFree, Bool.and_eq_true] at hs
    obtain ⟨h1, h2⟩ := hs
    have hn2 : n.col k = none ∨
        ∃ w, n.col k = some w ∧ rs.any (fun r => r.col k == some w) = false := by
      rcases hn with h | ⟨w, hw, hany⟩
      · exact Or.inl h
      · refine Or.inr ⟨w, hw, ?_⟩
        rw [List.any_cons] at hany
        exact (Bool.or_eq_false_iff.mp hany).2
    simp only [List.cons_append, colClashFree, Bool.and_eq_true]
    refine ⟨?_, ih h2 hn2⟩
    apply rowClashFreeAgainst_append_one k r n rs h1
    intro v hv
    rcases hn with h | ⟨w, hw, hany⟩
    · simp [h]
    · rw [hw]
      rw [List.any_cons] at hany
      have hr := (Bool.or_eq_false_iff.mp hany).1
      rw [hv] at hr
      simp only [beq_eq_false_iff_ne, ne_eq] at hr
      simp only [Bool.not_eq_true', beq_eq_false_iff_ne, ne_eq]
      intro hcon
      exact hr hcon.symm

theorem colClashFree_applyUpsert (k : SourceKind) (s : List Row) (op : UpsertOp)
    (h : colClashFree k s = true) : colClashFree k (applyUpsert s op) = true := by
  unfold applyUpsert
  by_cases hc : s.any (fun r => r.col op.kind == some op.ident) = true
  · rw [if_pos hc, colClashFree_map_upsert]
    exact h
  · simp only [Bool.not_eq_true] at hc
    rw [if_neg (by simp [hc])]
    apply colClashFree_append_one k (newRow op) s h
    by_cases hk : k = op.kind
    · subst hk
      exact Or.inr ⟨op.ident, newRow_col_self op, hc⟩
    · exact Or.inl (newRow_col_other op k hk)

theorem noDupIds_applyUpsert (s : List Row) (op : UpsertOp)
    (h : noDupIds s = true) : noDupIds (applyUpsert s op) = true := by
  unfold noDupIds at h ⊢
  simp only [Bool.and_eq_true] at h ⊢
  exact ⟨⟨colClashFree_applyUpsert _ s op h.1.1, colClashFree_applyUpsert _ s op h.1.2⟩,
    colClashFree_applyUpsert _ s op h.2⟩

theorem noDupIds_foldl (ops : List UpsertOp) :
    ∀ s : List Row, noDupIds s = true → noDupIds (ops.foldl applyUpsert s) = true := by
  induction ops with
  | nil => intro s h; exact h
  | cons op rest ih =>
    intro s h
    exact ih _ (noDupIds_applyUpsert s op h)

theorem processItem_resolve_none
    (fetch : SourceKind → DbVal → Option String × Option String)
    (s : List Row) (item : List (String × PyVal)) (h : resolveItem item = none) :
    processItem fetch s item = (s, 0, 0) := by
  unfold resolveItem at h
  unfold processItem
  cases hu : itemUrl item with
  | none => rfl
  | some url =>
    cases ht : itemTitle item with
    | none => rfl
    | some title =>
      rw [hu, ht] at h
      simp only at h
      simp [h]

theorem processItem_resolve_some
    (fetch : SourceKind → DbVal → Option String × Option String)
    (s : List Row) (item : List (String × PyVal)) (k : SourceKind) (v : DbVal)
    (h : resolveItem item = some (k, v)) :
    (dbExists s k v = true → processItem fetch s item = (s, 0, 0)) ∧
    (dbExists s k v = false →
      ∃ title, itemTitle item = some title ∧
        processItem fetch s item =
          (store_in_db s k v title (itemAuthor item) (itemCategory item)
            (fetch k v).1 (fetch k v).2, 1, 1)) := by
  unfold resolveItem at h
  cases hu : itemUrl item with
  | none =>
    rw [hu] at h
    simp at h
  | some url =>
    cases ht : itemTitle item with
    | none =>
      rw [hu, ht] at h
      simp at h
    | some title =>
      rw [hu, ht] at h
      simp only at h
      constructor
      · intro hex
        simp [processItem, hu, ht, h, hex]
      · intro hex
        refine ⟨title, rfl, ?_⟩
        simp [processItem, hu, ht, h, hex]

theorem dbExists_mono_processItem
    (fetch : SourceKind → DbVal → Option String × Option String)
    (s : List Row) (item : List (String × PyVal)) (k : SourceKind) (v : DbVal)
    (h : dbExists s k v = true) :
    dbExists (processItem fetch s item).1 k v = true := by
  cases hr : resolveItem item with
  | none =>
    rw [processItem_resolve_none fetch s item hr]
    exact h
  | some kv =>
    obtain ⟨k', v'⟩ := kv
    cases hex : dbExists s k' v' with
    | true =>
      rw [(processItem_resolve_some fetch s item k' v' hr).1 hex]
      exact h
    | false =>
      obtain ⟨title, _, heq⟩ := (processItem_resolve_some fetch s item k' v' hr).2 hex
      rw [heq]
      exact dbExists_mono_store_in_db s k' v' title (itemAuthor item) (itemCategory item)
        (fetch k' v').1 (fetch k' v').2 k v h

theorem process_input_cons
    (fetch : SourceKind → DbVal → Option String × Option String)
    (a : List (String × PyVal)) (rest : List (List (String × PyVal))) (s : List Row) :
    process_input fetch (a :: rest) s = process_input fetch rest (processItem fetch s a).1 :=
  rfl

theorem dbExists_mono_process_input
    (fetch : SourceKind → DbVal → Option String × Option String)
    (data : List (List (String × PyVal))) :
    ∀ (s : List Row) (k : SourceKind) (v : DbVal), dbExists s k v = true →
      dbExists (process_input fetch data s) k v = true := by
  induction data with
  | nil => intro s k v h; exact h
  | cons a rest ih =>
    intro s k v h
    rw [process_input_cons]
    exact ih _ k v (dbExists_mono_processItem fetch s a k v h)

theorem process_input_covers
    (fetch : SourceKind → DbVal → Option String × Option String)
    (data : List (List (String × PyVal))) :
    ∀ (s : List Row) (item : List (String × PyVal)) (k : SourceKind) (v : DbVal),
      item ∈ data → resolveItem item = some (k, v) → storable (fetch k v).1 = true →
      dbExists (process_input fetch data s) k v = true := by
  induction data with
  | nil =>
    intro s item k v hm
    exact absurd hm (List.not_mem_nil item)
  | cons a rest ih =>
    intro s item k v hm hr hs
    rw [process_input_cons]
    rcases List.mem_cons.mp hm with heq | hmem
    · subst heq
      cases hex : dbExists s k v with
      | true =>
        rw [(processItem_resolve_some fetch s item k v hr).1 hex]
        exact dbExists_mono_process_input fetch rest s k v hex
      | false =>
        obtain ⟨title, _, hpeq⟩ := (processItem_resolve_some fetch s item k v hr).2 hex
        rw [hpeq]
        apply dbExists_mono_process_input fetch rest
        exact dbExists_store_in_db_self s k v title (itemAuthor item) (itemCategory item)
          (fetch k v).1 (fetch k v).2 hs
    · exact ih _ item k v hmem hr hs

theorem processItem_noop
    (fetch : SourceKind → DbVal → Option String × Option String)
    (t : List Row) (item : List (String × PyVal))
    (h : resolveItem item = none ∨ ∃ k v, resolveItem item = some (k, v) ∧
        (dbExists t k v = true ∨ storable (fetch k v).1 = false)) :
    (processItem fetch t item).1 = t := by
  rcases h with h | ⟨k, v, hr, h2⟩
  · rw [processItem_resolve_none fetch t item h]
  · rcases h2 with hex | hns
    · rw [(processItem_resolve_some fetch t item k v hr).1 hex]
    · cases hex : dbExists t k v with
      | true => rw [(processItem_resolve_some fetch t item k v hr).1 hex]
      | false =>
        obtain ⟨title, _, hpeq⟩ := (processItem_resolve_some fetch t item k v hr).2 hex
        rw [hpeq]
        exact store_in_db_not_storable t k v title (itemAuthor item) (itemCategory item)
          (fetch k v).1 (fetch k v).2 hns

theorem process_input_fix
    (fetch : SourceKind → DbVal → Option String × Option String)
    (data : List (List (String × PyVal))) (t : List Row)
    (h : ∀ item ∈ data, resolveItem item = none ∨
        ∃ k v, resolveItem item = some (k, v) ∧
          (dbExists t k v = true ∨ storable (fetch k v).1 = false)) :
    process_input fetch data t = t := by
  induction data with
  | nil => rfl
  | cons a rest ih =>
    rw [process_input_cons, processItem_noop fetch t a (h a (List.mem_cons_self a rest))]
    exact ih (fun item hm => h item (List.mem_cons_of_mem a hm))

/-! ## Claim theorems -/

/-- C1 counterexample: when the first Gutenberg candidate URL answers
200 with a whitespace-only body and the second answers 200 with body
"BOOK", the fetch returns `(none, none)`, although the first response
with HTTP status 200 AND a non-empty trimmed body is the second
candidate — so the fetch does not return that response, refuting the
claim as stated. -/
theorem C1_counterexample :
    gutenberg_download cexC1World (some 5) = (none, none) ∧
    specFirstSuccess cexC1World (gutenberg_urls 5) =
      some ("BOOK", "https://www.gutenberg.org/files/5/5.txt") :=
  ⟨by decide, by decide⟩

/-- C1 (amended): the Gutenberg / Internet Archive fetch returns the
response of the FIRST candidate with HTTP status 200 — candidates that
fail with a network error or non-200 status are skipped and the next
candidate is tried, never raising — but if that first 200 response has
an empty trimmed body the fetch returns `(none, none)` without trying
the remaining candidates. -/
theorem C1_fetch_fallback_amended :
    (∀ (world : String → FetchOutcome) (urls : List String),
      text_download world urls =
        match urls.find? (fun u => is200 (world u)) with
        | none => (none, none)
        | some u =>
          if stripTruthy (respBody (world u)) then (some (respBody (world u)), some u)
          else (none, none)) ∧
    (∀ (world : String → FetchOutcome) (i : Int),
      gutenberg_download world (some i) = text_download world (gutenberg_urls i)) ∧
    (∀ (world : String → FetchOutcome) (i : String),
      ia_download world (some i) = text_download world (ia_urls i)) := by
  refine ⟨?_, fun _ _ => rfl, fun _ _ => rfl⟩
  intro world urls
  unfold text_download
  rw [download_text_eq_find]
  cases urls.find? (fun u => is200 (world u)) <;> rfl

/-- C2: running the same batch a second time against the store produced
by the first run (with the same fetch results) leaves the store exactly
as it was: the second run adds, deletes and changes nothing. -/
theorem C2_batch_idempotent
    (fetch : SourceKind → DbVal → Option String × Option String)
    (data : List (List (String × PyVal))) (s : List Row) :
    process_input fetch data (process_input fetch data s) =
      process_input fetch data s := by
  apply process_input_fix
  intro item hm
  cases hr : resolveItem item with
  | none => exact Or.inl rfl
  | some kv =>
    obtain ⟨k, v⟩ := kv
    refine Or.inr ⟨k, v, rfl, ?_⟩
    cases hs : storable (fetch k v).1 with
    | false => exact Or.inr rfl
    | true => exact Or.inl (process_input_covers fetch data s item k v hm hr hs)

/-- C3: any sequence of upserts starting from the empty store keeps
every identifier column duplicate-free among its non-null values, and
an upsert whose identifier is already present overwrites the existing
row's descriptive fields, leaves every identifier column of every row
untouched, and creates no new row. -/
theorem C3_upsert_unique_and_overwrite :
    (∀ ops : List UpsertOp, noDupIds (ops.foldl applyUpsert []) = true) ∧
    (∀ (s : List Row) (op : UpsertOp), noDupIds s = true →
      noDupIds (applyUpsert s op) = true) ∧
    (∀ (s : List Row) (op : UpsertOp), dbExists s op.kind op.ident = true →
      (applyUpsert s op).length = s.length ∧
      applyUpsert s op =
        s.map (fun r => if r.col op.kind == some op.ident then overwriteDesc r op else r) ∧
      (∀ (r : Row) (k : SourceKind),
        ((if r.col op.kind == some op.ident then overwriteDesc r op else r).col k) =
          r.col k)) := by
  refine ⟨fun ops => noDupIds_foldl ops [] rfl, noDupIds_applyUpsert, ?_⟩
  intro s op h
  unfold dbExists at h
  unfold applyUpsert
  rw [if_pos h]
  exact ⟨List.length_map s _, rfl, fun r k => col_upsertMap op r k⟩

/-- Witness for C3: the invariant and conflict behaviour evaluated at a
one-row store holding Gutenberg id 1342 and a colliding upsert. -/
theorem C3_witness :
    noDupIds (applyUpsert [exRow] exOp) = true ∧
    (applyUpsert [exRow] exOp).length = 1 := by
  constructor
  · exact C3_upsert_unique_and_overwrite.2.1 [exRow] exOp (by decide)
  · exact (C3_upsert_unique_and_overwrite.2.2 [exRow] exOp (by decide)).1

/-- C4: a URL that fails a source's identifier-extraction pattern
(missing the required path segment, or non-numeric content where
Gutenberg requires an integer, or none of the three Google Books
regexes matching) makes that source's `get_id` return no identity; the
functions are total, so no exception is raised. -/
theorem C4_malformed_url_no_identity (url : String) :
    (gutenbergPatternOk url = false → gutenberg_get_id url = none) ∧
    (googlePatternOk url = false → googleBooks_get_id url = none) ∧
    (iaPatternOk url = false → ia_get_id url = none) := by
  refine ⟨?_, ?_, ?_⟩
  · intro h
    unfold gutenbergPatternOk at h
    unfold gutenberg_get_id
    cases hs : pySplit1 ebooksSeg url.toList with
    | none => rfl
    | some seg =>
      rw [hs] at h
      have h2 : (pyInt? (takeUntilSub ['?'] seg)).isSome = false := h
      show pyInt? (takeUntilSub ['?'] seg) = none
      cases hp : pyInt? (takeUntilSub ['?'] seg) with
      | none => rfl
      | some n =>
        rw [hp] at h2
        simp at h2
  · intro h
    unfold googlePatternOk at h
    rw [Bool.or_eq_false_iff, Bool.or_eq_false_iff] at h
    obtain ⟨⟨h1, h2⟩, h3⟩ := h
    have e1 : gbSearchEdition url.toList = none := by
      cases hx : gbSearchEdition url.toList
      · rfl
      · rw [hx] at h1
        exact absurd h1 (by simp)
    have e2 : gbSearchIdEq none url.toList = none := by
      cases hx : gbSearchIdEq none url.toList
      · rfl
      · rw [hx] at h2
        exact absurd h2 (by simp)
    have e3 : gbSearchBooksId url.toList = none := by
      cases hx : gbSearchBooksId url.toList
      · rfl
      · rw [hx] at h3
        exact absurd h3 (by simp)
    unfold googleBooks_get_id
    rw [e1, e2, e3]
    rfl
  · intro h
    unfold iaPatternOk strContainsSub at h
    unfold ia_get_id pySplit1
    have hnone : (dropUntilSub detailsSeg url.toList).isSome = false := by
      rw [dropUntilSub_isSome_eq_containsSub detailsSeg (by decide) url.toList]
      exact h
    cases hd : dropUntilSub detailsSeg url.toList with
    | some seg =>
      rw [hd] at hnone
      simp at hnone
    | none => rfl

/-- Witness for C4: a Gutenberg-domain URL with non-numeric `/ebooks/`
content and a Google-domain URL matching none of the three regexes both
resolve to no identity. -/
theorem C4_witness :
    gutenberg_get_id "https://www.gutenberg.org/ebooks/abc" = none ∧
    googleBooks_get_id "https://books.google.de/about" = none ∧
    ia_get_id "https://archive.org/about" = none := by
  refine ⟨?_, ?_, ?_⟩
  · exact (C4_malformed_url_no_identity "https://www.gutenberg.org/ebooks/abc").1 (by decide)
  · exact (C4_malformed_url_no_identity "https://books.google.de/about").2.1 (by decide)
  · exact (C4_malformed_url_no_identity "https://archive.org/about").2.2 (by decide)

/-- C5: a request whose resolved identifier is already present under
its source's column is skipped before any fetch: the coordinator makes
zero fetch calls, zero pauses, and leaves the store unchanged. -/
theorem C5_existing_identifier_skips_fetch
    (fetch : SourceKind → DbVal → Option String × Option String)
    (s : List Row) (item : List (String × PyVal)) (k : SourceKind) (v : DbVal)
    (hr : resolveItem item = some (k, v)) (hex : dbExists s k v = true) :
    processItem fetch s item = (s, 0, 0) :=
  (processItem_resolve_some fetch s item k v hr).1 hex

/-- Witness for C5: the Gutenberg 1342 request against a store already
holding id 1342, with a fetch oracle that would succeed: no fetch call
is made. -/
theorem C5_witness : processItem okFetch [exRow] exItem = ([exRow], 0, 0) :=
  C5_existing_identifier_skips_fetch okFetch [exRow] exItem .gutenberg (.int 1342)
    (by decide) (by decide)

theorem extract_ocr_capable (env : OcrEnv) (w : Pdf → Option String) (pdf : Pdf)
    (ht : env.tesseract = true) (hg : env.ghostscript = true) :
    extract_ocr_from_pdf env w pdf =
      match env.ocrRun pdf with
      | none => (none, 1)
      | some out => (extract_text_from_pdf w out, 1) := by
  unfold extract_ocr_from_pdf extract_text_from_pdf
  rw [ht, hg]
  simp only [Bool.not_true, Bool.false_eq_true, if_false]
  cases ho : env.ocrRun pdf with
  | none => rfl
  | some out =>
    show (match w out with
      | none => ((none : Option String), 1)
      | some t => if stripTruthy t then (some t, 1) else (none, 1)) =
      ((match w out with
        | none => none
        | some t => if stripTruthy t then some t else none), 1)
    cases hw : w out with
    | none => rfl
    | some t => cases hst : stripTruthy t <;> simp [hst]

/-- C6: the extraction pipeline never invokes OCR when structural
extraction yields non-empty text; when structural extraction yields
nothing and both OCR capabilities are present, OCR is invoked exactly
once and its output PDF is run back through structural extraction; when
a capability is missing, the pipeline reports no text with zero OCR
invocations. -/
theorem C6_ocr_gating (env : OcrEnv) (w : Pdf → Option String) (pdf : Pdf) :
    (∀ t, extract_text_from_pdf w pdf = some t →
      convert_pdf_to_text env w pdf = (some t, 0)) ∧
    (extract_text_from_pdf w pdf = none → env.tesseract = true →
      env.ghostscript = true →
      (convert_pdf_to_text env w pdf).2 = 1 ∧
      ∀ out, env.ocrRun pdf = some out →
        (convert_pdf_to_text env w pdf).1 = extract_text_from_pdf w out) ∧
    (extract_text_from_pdf w pdf = none →
      (env.tesseract = false ∨ env.ghostscript = false) →
      convert_pdf_to_text env w pdf = (none, 0)) := by
  refine ⟨?_, ?_, ?_⟩
  · intro t h
    unfold convert_pdf_to_text
    rw [h]
  · intro h ht hg
    unfold convert_pdf_to_text
    rw [h, extract_ocr_capable env w pdf ht hg]
    cases ho : env.ocrRun pdf with
    | none =>
      refine ⟨rfl, ?_⟩
      intro out hout
      exact Option.noConfusion hout
    | some out2 =>
      refine ⟨rfl, ?_⟩
      intro out hout
      injection hout with he
      subst he
      rfl
  · intro h hcap
    unfold convert_pdf_to_text
    rw [h]
    unfold extract_ocr_from_pdf
    rcases hcap with hc | hc
    · rw [hc]
      simp
    · rw [hc]
      cases ht : env.tesseract <;> simp

/-- Witness for C6: a PDF with an embedded text layer skips OCR; a PDF
whose text only appears after OCR invokes it exactly once and reads the
OCR output structurally; a host without tesseract reports no text with
zero OCR invocations. -/
theorem C6_witness :
    convert_pdf_to_text fullOcrEnv embeddedW [0] = (some "embedded text", 0) ∧
    (convert_pdf_to_text fullOcrEnv ocrOnlyW [0]).2 = 1 ∧
    (convert_pdf_to_text fullOcrEnv ocrOnlyW [0]).1 = extract_text_from_pdf ocrOnlyW [1] ∧
    convert_pdf_to_text noTessEnv ocrOnlyW [0] = (none, 0) := by
  refine ⟨?_, ?_, ?_, ?_⟩
  · exact (C6_ocr_gating fullOcrEnv embeddedW [0]).1 "embedded text" (by decide)
  · exact ((C6_ocr_gating fullOcrEnv ocrOnlyW [0]).2.1 (by decide) rfl rfl).1
  · exact ((C6_ocr_gating fullOcrEnv ocrOnlyW [0]).2.1 (by decide) rfl rfl).2 [1] rfl
  · exact (C6_ocr_gating noTessEnv ocrOnlyW [0]).2.2 (by decide) (Or.inl rfl)

/-- C7: a request that produces no text never touches the store — a
`None` or empty text is not upserted, a Google Books volume without an
available PDF yields `(none, none)` with nothing passed to extraction,
and the coordinator leaves the store unchanged for a request whose
fetch produced no storable text. -/
theorem C7_no_text_no_store :
    (∀ (s : List Row) (k : SourceKind) (v : DbVal)
        (title author category : String) (url : Option String),
      store_in_db s k v title author category none url = s ∧
      store_in_db s k v title author category (some "") url = s) ∧
    (∀ (env : OcrEnv) (w : Pdf → Option String) (pdfGet : String → PdfFetch)
        (meta : GBMeta), meta.isAvailable = false →
      extract_pdf env w pdfGet meta = ((none, none), 0)) ∧
    (∀ (fetch : SourceKind → DbVal → Option String × Option String)
        (s : List Row) (item : List (String × PyVal)) (k : SourceKind) (v : DbVal),
      resolveItem item = some (k, v) → storable (fetch k v).1 = false →
      (processItem fetch s item).1 = s) := by
  refine ⟨?_, ?_, ?_⟩
  · intro s k v title author category url
    exact ⟨store_in_db_not_storable s k v title author category none url rfl,
      store_in_db_not_storable s k v title author category (some "") url rfl⟩
  · intro env w pdfGet meta h
    unfold extract_pdf
    rw [h]
    rfl
  · intro fetch s item k v hr hns
    exact processItem_noop fetch s item (Or.inr ⟨k, v, hr, Or.inr hns⟩)

/-- Witness for C7: the `isAvailable=false` Google Books volume returns
`(none, none)` with nothing extracted, and a failing fetch leaves the
empty store empty. -/
theorem C7_witness :
    extract_pdf fullOcrEnv ocrOnlyW tinyPdfGet unavailableMeta = ((none, none), 0) ∧
    (processItem failFetch [] exItem).1 = [] := by
  constructor
  · exact C7_no_text_no_store.2.1 fullOcrEnv ocrOnlyW tinyPdfGet unavailableMeta rfl
  · exact C7_no_text_no_store.2.2 failFetch [] exItem .gutenberg (.int 1342)
      (by decide) rfl

/-- C8: a fetched Google Books PDF response with non-200 status or a
body under 50000 bytes is discarded: nothing is passed to the
text-extraction pipeline and the fetch returns no result. -/
theorem C8_reject_small_or_non200 (env : OcrEnv) (w : Pdf → Option String)
    (pdfGet : String → PdfFetch) (meta : GBMeta) (link : String) (r : PdfResp)
    (hav : meta.isAvailable = true) (hlink : meta.downloadLink = some link)
    (hne : link.isEmpty = false) (hget : pdfGet link = .ok r)
    (hbad : r.status ≠ 200 ∨ r.content.length < 50000) :
    extract_pdf env w pdfGet meta = ((none, none), 0) := by
  unfold extract_pdf
  rw [hav, hlink]
  simp only [Bool.not_true, Bool.false_eq_true, if_false]
  rw [hne]
  simp only [Bool.false_eq_true, if_false]
  rw [hget]
  exact if_pos hbad

/-- Witness for C8: a 200 response of 2 bytes for an available volume is
discarded without extraction. -/
theorem C8_witness :
    extract_pdf fullOcrEnv embeddedW tinyPdfGet exMeta = ((none, none), 0) :=
  C8_reject_small_or_non200 fullOcrEnv embeddedW tinyPdfGet exMeta "http://pdf"
    { status := 200, content := [0, 0] } rfl rfl rfl rfl (Or.inr (by decide))

/-- C9: a request that is dropped (unresolved) or skipped (identifier
already stored) executes no pause; a request that reaches a store
attempt — in particular every successful one — is followed by exactly
one fixed pause of 1 time unit. -/
theorem C9_pause_only_after_store_attempts
    (fetch : SourceKind → DbVal → Option String × Option String)
    (s : List Row) (item : List (String × PyVal)) :
    (resolveItem item = none → (processItem fetch s item).2.2 = 0) ∧
    (∀ k v, resolveItem item = some (k, v) → dbExists s k v = true →
      (processItem fetch s item).2.2 = 0) ∧
    (∀ k v, resolveItem item = some (k, v) → dbExists s k v = false →
      (processItem fetch s item).2.2 = 1) := by
  refine ⟨?_, ?_, ?_⟩
  · intro h
    rw [processItem_resolve_none fetch s item h]
  · intro k v hr hex
    rw [(processItem_resolve_some fetch s item k v hr).1 hex]
  · intro k v hr hex
    obtain ⟨title, _, heq⟩ := (processItem_resolve_some fetch s item k v hr).2 hex
    rw [heq]

/-- Witness for C9: a dropped request (no url) pauses zero times, a
skipped request pauses zero times, a stored request pauses once. -/
theorem C9_witness :
    (processItem okFetch [] [("title", PyVal.str "t")]).2.2 = 0 ∧
    (processItem okFetch [exRow] exItem).2.2 = 0 ∧
    (processItem okFetch [] exItem).2.2 = 1 := by
  refine ⟨?_, ?_, ?_⟩
  · exact (C9_pause_only_after_store_attempts okFetch [] [("title", PyVal.str "t")]).1
      (by decide)
  · exact (C9_pause_only_after_store_attempts okFetch [exRow] exItem).2.1 .gutenberg
      (.int 1342) (by decide) (by decide)
  · exact (C9_pause_only_after_store_attempts okFetch [] exItem).2.2 .gutenberg
      (.int 1342) (by decide) rfl

/-- C10: an `author` or `category` key carrying a falsy value (empty
string or null) gets the default "Unknown" / "Uncategorized", exactly
as when the key is absent. -/
theorem C10_falsy_fields_defaulted (item : List (String × PyVal)) (v : PyVal) :
    (dictGet (lowerDict item) "author" = some v → pyTruthy v = false →
      itemAuthor item = "Unknown") ∧
    (dictGet (lowerDict item) "author" = none → itemAuthor item = "Unknown") ∧
    (dictGet (lowerDict item) "category" = some v → pyTruthy v = false →
      itemCategory item = "Uncategorized") ∧
    (dictGet (lowerDict item) "category" = none → itemCategory item = "Uncategorized") := by
  refine ⟨?_, ?_, ?_, ?_⟩
  · intro h ht
    unfold itemAuthor pyOrDefault
    rw [h]
    cases v with
    | null => rfl
    | str s =>
      simp only [pyTruthy] at ht
      cases he : s.isEmpty
      · rw [he] at ht
        simp at ht
      · simp [he]
  · intro h
    unfold itemAuthor pyOrDefault
    rw [h]
  · intro h ht
    unfold itemCategory pyOrDefault
    rw [h]
    cases v with
    | null => rfl
    | str s =>
      simp only [pyTruthy] at ht
      cases he : s.isEmpty
      · rw [he] at ht
        simp at ht
      · simp [he]
  · intro h
    unfold itemCategory pyOrDefault
    rw [h]

/-- Witness for C10: a record whose `Author` is the empty string and
whose `CATEGORY` is null gets both defaults. -/
theorem C10_witness :
    itemAuthor falsyItem = "Unknown" ∧ itemCategory falsyItem = "Uncategorized" := by
  constructor
  · exact (C10_falsy_fields_defaulted falsyItem (PyVal.str "")).1 (by decide) (by decide)
  · exact (C10_falsy_fields_defaulted falsyItem PyVal.null).2.2.1 (by decide) (by decide)
